import Mathlib

/-!
Shallow embedding of the glacmaptools outline-validation core:
`src/gcmt/geometry.py` (class `GlacierOutlines`) and
`src/glacmaptools/utils.py` (`rgi_loader` and the `rgi_regions` table).

Geometric predicates and constructors (overlaps, intersection, validity,
single-part decomposition, vertex cleaning, union, difference, envelope,
representative point, point-in-polygon) are external collaborators
(shapely / geopandas / geoutils); they are modelled as parameters bundled
in `GeomOps` / `JoinOps`, so every theorem quantifies over the collaborator.
A collection (`geopandas.GeoDataFrame` wrapped in `gu.Vector`) is modelled
as a list of records with an integer label (the pandas index), a geometry
and a list of attribute fields.  The pandas index is assumed unique and
monotonically increasing (the default `RangeIndex` case and every index
produced by `reindex()`), which is what makes the label-based `.loc`
slicing of the source well defined.
-/

set_option autoImplicit false

namespace GlacMapTools

universe u v w

/-- Python `enumerate(xs, n)`: pair each element with its counter starting at `n`. -/
def enumNat {β : Type u} (n : Nat) : List β → List (Nat × β)
  | [] => []
  | x :: xs => (n, x) :: enumNat (n + 1) xs

/-- One row of the GeoDataFrame: pandas index label, geometry, and the remaining
attribute columns (carried through unchanged as key/value pairs). -/
structure Rec (α : Type u) where
  label : Nat
  geom : α
  attrs : List (String × String)
deriving Repr, DecidableEq

/-- External geometry collaborator operations used by `geometry.py`
(shapely predicates and constructors, via geopandas/geoutils). -/
structure GeomOps (α : Type u) where
  /-- shapely `a.overlaps(b)` -/
  ovl : α → α → Bool
  /-- shapely `a.intersection(b)` -/
  inter : α → α → α
  /-- shapely `is_valid` -/
  isValid : α → Bool
  /-- shapely `is_valid_reason()` -/
  reason : α → String
  /-- geopandas `explode()` of one geometry: its single-part pieces -/
  explode : α → List α
  /-- shapely `remove_repeated_points(tolerance=1e-6)` -/
  clean : α → α
  /-- geopandas `union_all()` over the geometry column -/
  unionAll : List α → α
  /-- shapely `a.difference(b)` -/
  diff : α → α → α

/-- Embedding of `GlacierOutlines._overlapping_inds` (geometry.py lines 130-144).

```python
for n, ind in enumerate(self.index[:-1], 1):
    poly = self.ds.loc[ind, 'geometry']
    has_overlap = [g.overlaps(poly) for g in self.ds.loc[n + 1:, 'geometry']]
    if any(has_overlap):
        overlaps.append(ind)
        for oind, row in self.ds.loc[n + 1:].iterrows():
            if row['geometry'].overlaps(poly):
                overlap_inds.append((ind, oind))
```

`self.ds.loc[n + 1:]` is a label-based slice: for a (unique, ascending)
integer index it selects the rows whose label is `>= n + 1`, where `n` is
the enumeration counter started at 1, not the row label `ind`. -/
def overlappingInds {α : Type u} (ovl : α → α → Bool) (recs : List (Rec α)) :
    List (Nat × Nat) :=
  (enumNat 1 recs.dropLast).flatMap (fun p =>
    let n := p.1
    let ind := p.2.label
    let poly := p.2.geom
    let tailRecs := recs.filter (fun r => n + 1 ≤ r.label)
    if tailRecs.any (fun r => ovl r.geom poly) then
      (tailRecs.filter (fun r => ovl r.geom poly)).map (fun r => (ind, r.label))
    else [])

/-- Modelled from the spec (for comparison with `overlappingInds`): "for each
record at position i (iterating all but the last), compare its geometry against
every record strictly after it in the ordered sequence (i.e., only the upper
triangle of the pairwise comparison matrix)", returning the pairs
`(ind_earlier, ind_later)` for which the overlaps predicate holds. -/
def specOverlappingInds {α : Type u} (ovl : α → α → Bool) (recs : List (Rec α)) :
    List (Nat × Nat) :=
  (enumNat 0 recs).flatMap (fun p =>
    ((recs.drop (p.1 + 1)).filter (fun r => ovl r.geom p.2.geom)).map
      (fun r => (p.2.label, r.label)))

/-- One `explode()` pass over the overlap GeoDataFrame: each geometry is split
into its single-part pieces, every piece keeping the `ind1`/`ind2` columns. -/
def explodeRows {α : Type u} (ops : GeomOps α) (rows : List (α × Nat × Nat)) :
    List (α × Nat × Nat) :=
  rows.flatMap (fun q => (ops.explode q.1).map (fun g => (g, q.2.1, q.2.2)))

/-- Embedding of `GlacierOutlines.get_overlaps` (geometry.py lines 112-128).

```python
pairs = self._overlapping_inds()
geoms = []
for ind1, ind2 in pairs:
    geoms.append(self.ds.loc[ind1, 'geometry'].intersection(self.ds.loc[ind2, 'geometry']))
left, right = zip(*pairs)
overlap_gdf = gu.Vector(gpd.GeoDataFrame(data={...}, crs=self.crs)).explode()
return overlap_gdf.explode()
```

When `pairs` is empty, `zip(*pairs)` is `zip()`, and unpacking it into
`left, right` raises `ValueError: not enough values to unpack`; this is
modelled by the `Except.error` branch. -/
def getOverlaps {α : Type u} (ops : GeomOps α) (recs : List (Rec α)) :
    Except String (List (α × Nat × Nat)) :=
  let pairs := overlappingInds ops.ovl recs
  let geoms := pairs.filterMap (fun pr =>
    match recs.find? (fun r => r.label == pr.1), recs.find? (fun r => r.label == pr.2) with
    | some a, some b => some (ops.inter a.geom b.geom)
    | _, _ => none)
  if pairs.isEmpty then
    Except.error ("ValueError: not enough values to unpack (expected 2, got 0)")
  else
    let rows := (geoms.zip pairs).map (fun q => (q.1, q.2.1, q.2.2))
    Except.ok (explodeRows ops (explodeRows ops rows))

/-- Value of `get_overlaps()` as used inside `validate` (geometry.py line 66),
where it is only evaluated when `pairs` is non-empty, so the `ValueError`
branch of `getOverlaps` is unreachable there. -/
def overlapGdf {α : Type u} (ops : GeomOps α) (recs : List (Rec α)) :
    List (α × Nat × Nat) :=
  match getOverlaps ops recs with
  | Except.ok v => v
  | Except.error _ => []

/-- Splits a character list at every occurrence of `c` (the pieces do not
contain `c`; n occurrences give n + 1 pieces). -/
def splitOnChar (c : Char) : List Char → List (List Char)
  | [] => [[]]
  | a :: as =>
    let r := splitOnChar c as
    if a == c then [] :: r
    else
      match r with
      | [] => [[a]]
      | h :: t => (a :: h) :: t

/-- Joins character-list pieces with the character `c` between them. -/
def intercalateChar (c : Char) : List (List Char) → List Char
  | [] => []
  | [x] => x
  | x :: y :: t => x ++ c :: intercalateChar c (y :: t)

/-- Models `os.path.basename`: the part of the path after the last slash. -/
def basename (s : String) : String :=
  String.mk ((splitOnChar ('/') s.data).getLastD s.data)

/-- Models `os.path.splitext(...)[0]` for ordinary file names (no leading
dot): drop the part after the last dot (the whole name when it has no dot). -/
def splitextStem (s : String) : String :=
  let parts := splitOnChar ('.') s.data
  if parts.length ≤ 1 then s else String.mk (intercalateChar ('.') parts.dropLast)

/-- Output file-name stem: `os.path.splitext(os.path.basename(self.name))[0]`
(geometry.py line 57). -/
def stemOf (name : String) : String :=
  splitextStem (basename name)

/-- Helper for `duplicatedLabels`: walk the label list keeping the labels seen
so far, collecting each label already seen before its position. -/
def dupMarks : List Nat → List Nat → List Nat
  | _, [] => []
  | seen, x :: xs =>
    if seen.contains x then x :: dupMarks (x :: seen) xs
    else dupMarks (x :: seen) xs

/-- Models `exploded[exploded.ds.index.duplicated()].index.to_list()`
(geometry.py line 95): the labels at positions marked as duplicated (a label
already occurred strictly earlier in the exploded index). -/
def duplicatedLabels (l : List Nat) : List Nat :=
  dupMarks [] l

/-- Contents of one `to_file` call inside `validate` (which GeoDataFrame was
written): the overlap table (pieces with `ind1`/`ind2`), the invalid table
(records with the added `reason` column), or a plain record table (the
multi-part offenders, or the cleaned collection). -/
inductive Table (α : Type u) where
  | overlapTable : List (α × Nat × Nat) → Table α
  | invalidTable : List (Rec α × String) → Table α
  | recTable : List (Rec α) → Table α
deriving Repr, DecidableEq

/-- One `to_file(Path(dir, file))` call: the path as its two `Path` components
plus the rows written. -/
structure FileWrite (α : Type u) where
  path : String × String
  rows : Table α
deriving Repr, DecidableEq

/-- Observable outcome of `validate()`: whether the final assert passed
(`ok = false` models the raised `AssertionError`), the final state of
`self.ds` (the mutation survives the raise, since `self` is aliased by the
caller), the `to_file` calls made, and the `os.makedirs` calls made, each in
program order. -/
structure VResult (α : Type u) where
  ok : Bool
  records : List (Rec α)
  writes : List (FileWrite α)
  dirs : List String
deriving Repr, DecidableEq

/-- Embedding of `GlacierOutlines.validate` (geometry.py lines 35-110),
statement by statement:

- overlap check: `pairs = self._overlapping_inds()`; if any pairs, write
  `errors/<stem>_overlaps.gpkg` (after `os.makedirs('errors')`) and set
  `has_overlap` unless `overlap_ok`;
- validity check: if not all geometries valid, `os.makedirs('errors')`,
  set `has_invalid`, write the invalid records with their reason column to
  `errors/<stem>_invalid.gpkg`;
- multi-part check, only run when `not multi_ok`: `has_multi` when the record
  count differs from the exploded count; if so write the original records
  whose label is duplicated in the exploded index to `errors/<stem>_multi.gpkg`
  (note: this branch calls no `os.makedirs`);
- `self['geometry'] = self.ds.remove_repeated_points(tolerance=1e-6)`;
- `assert not any([has_overlap, has_invalid, has_multi])`; when it passes,
  `os.makedirs('cleaned')` and write `cleaned/<stem>.gpkg`. -/
def validate {α : Type u} (ops : GeomOps α) (overlap_ok multi_ok : Bool)
    (name : String) (recs : List (Rec α)) : VResult α :=
  let stem := stemOf name
  let pairs := overlappingInds ops.ovl recs
  let overlapWrites : List (FileWrite α) :=
    if 0 < pairs.length then
      [⟨("errors", stem ++ ("_overlaps.gpkg")), Table.overlapTable (overlapGdf ops recs)⟩]
    else []
  let overlapDirs : List String := if 0 < pairs.length then [("errors")] else []
  let has_overlap : Bool := if 0 < pairs.length then !overlap_ok else false
  let allValid : Bool := recs.all (fun r => ops.isValid r.geom)
  let invalidWrites : List (FileWrite α) :=
    if !allValid then
      [⟨("errors", stem ++ ("_invalid.gpkg")),
        Table.invalidTable ((recs.filter (fun r => !ops.isValid r.geom)).map
          (fun r => (r, ops.reason r.geom)))⟩]
    else []
  let invalidDirs : List String := if !allValid then [("errors")] else []
  let has_invalid : Bool := !allValid
  let exploded := recs.flatMap (fun r => (ops.explode r.geom).map (fun g => (r.label, g)))
  let multiData : List (FileWrite α) × Bool :=
    if !multi_ok then
      if recs.length != exploded.length then
        let multiinds := duplicatedLabels (exploded.map (fun q => q.1))
        ([⟨("errors", stem ++ ("_multi.gpkg")),
           Table.recTable (recs.filter (fun r => multiinds.contains r.label))⟩], true)
      else ([], false)
    else ([], false)
  let cleaned := recs.map (fun r => { r with geom := ops.clean r.geom })
  if has_overlap || has_invalid || multiData.2 then
    ⟨false, cleaned, overlapWrites ++ invalidWrites ++ multiData.1,
     overlapDirs ++ invalidDirs⟩
  else
    ⟨true, cleaned,
     overlapWrites ++ invalidWrites ++ multiData.1 ++
       [⟨("cleaned", stem ++ (".gpkg")), Table.recTable cleaned⟩],
     overlapDirs ++ invalidDirs ++ [("cleaned")]⟩

/-- Failure flag of the overlap check: overlapping pairs exist and the caller
did not pass `overlap_ok`. -/
def overlapFlag {α : Type u} (ops : GeomOps α) (overlap_ok : Bool)
    (recs : List (Rec α)) : Bool :=
  (0 < (overlappingInds ops.ovl recs).length : Bool) && !overlap_ok

/-- Failure flag of the validity check: some geometry is invalid. -/
def invalidFlag {α : Type u} (ops : GeomOps α) (recs : List (Rec α)) : Bool :=
  !(recs.all (fun r => ops.isValid r.geom))

/-- Failure flag of the multi-part check: the caller did not pass `multi_ok`
and the record count changes under single-part decomposition. -/
def multiFlag {α : Type u} (ops : GeomOps α) (multi_ok : Bool)
    (recs : List (Rec α)) : Bool :=
  !multi_ok &&
    (recs.length != (recs.flatMap (fun r => (ops.explode r.geom).map
      (fun g => (r.label, g)))).length)

/-- A write under the `cleaned/` output location. -/
def isCleanedWrite {α : Type u} (fw : FileWrite α) : Bool :=
  fw.path.1 == ("cleaned")

/-- A write of plain records under the `errors/` output location: exactly the
multi-part offender file (the overlap and invalid files use other tables). -/
def isMultiErrWrite {α : Type u} (fw : FileWrite α) : Bool :=
  fw.path.1 == ("errors") &&
    (match fw.rows with
     | Table.recTable _ => true
     | _ => false)

/-- Embedding of `GlacierOutlines.compute_difference` (geometry.py lines 146-171)
for the in-memory `other` case:

```python
other = other.union_all()
update = self.union_all()
removed = other.difference(update).explode()
added = update.difference(other).explode()
removed['difference'] = 'removed'
added['difference'] = 'added'
return gu.Vector(pd.concat([added.ds, removed.ds], ignore_index=True))
```

`pd.concat(..., ignore_index=True)` renumbers the rows 0, 1, ... in order,
which `enumNat 0` reproduces. -/
def computeDifference {α : Type u} (ops : GeomOps α)
    (selfRecs otherRecs : List (Rec α)) : List (Rec α) :=
  let otherU := ops.unionAll (otherRecs.map (fun r => r.geom))
  let update := ops.unionAll (selfRecs.map (fun r => r.geom))
  let removed := (ops.explode (ops.diff otherU update)).map (fun g => (g, ("removed" : String)))
  let added := (ops.explode (ops.diff update otherU)).map (fun g => (g, ("added" : String)))
  (enumNat 0 (added ++ removed)).map
    (fun p => { label := p.1, geom := p.2.1, attrs := [(("difference"), p.2.2)] })

/-- Observable effect of one `compute_difference` call on the caller's two
collections: the body only reads `self` and `other` (the assignment
`other = other.union_all()` rebinds the local name, and `removed` / `added`
are fresh objects), so the final states of `self.ds` and `other.ds` are the
input states, alongside the returned collection. -/
def computeDifferenceCall {α : Type u} (ops : GeomOps α)
    (selfRecs otherRecs : List (Rec α)) :
    List (Rec α) × List (Rec α) × List (Rec α) :=
  (selfRecs, otherRecs, computeDifference ops selfRecs otherRecs)

/-- Geometries of the output rows labelled `added`. -/
def addedGeoms {α : Type u} (ops : GeomOps α)
    (selfRecs otherRecs : List (Rec α)) : List α :=
  ((computeDifference ops selfRecs otherRecs).filter
    (fun r => decide (r.attrs = [(("difference"), ("added"))]))).map (fun r => r.geom)

/-- Geometries of the output rows labelled `removed`. -/
def removedGeoms {α : Type u} (ops : GeomOps α)
    (selfRecs otherRecs : List (Rec α)) : List α :=
  ((computeDifference ops selfRecs otherRecs).filter
    (fun r => decide (r.attrs = [(("difference"), ("removed"))]))).map (fun r => r.geom)

/-- External collaborator operations used by `join_rgi` beyond `GeomOps`:
`β` is the reference (RGI) geometry type and `π` the point type.  The CRS
reprojections (`to_crs`, `estimate_utm_crs`) of the source change coordinates,
not the record structure, and are absorbed into these operations. -/
structure JoinOps (α : Type u) (β : Type v) (π : Type w) where
  /-- shapely `.envelope` of the dissolved union of `self` -/
  envelope : α → α
  /-- geopandas `intersects`: reference geometry against the envelope -/
  intersectsG : β → α → Bool
  /-- geopandas `representative_point()` (computed in the estimated UTM CRS
  and reprojected back) -/
  repPoint : β → π
  /-- the sjoin predicate: the point intersects (lies within) the `self`
  geometry -/
  ptIn : α → π → Bool

/-- Models the external collaborator `geopandas` spatial join `self.sjoin(right)`
with its default arguments `how='inner'`, `predicate='intersects'`: one output
row per (left record, right point) pair satisfying the predicate, in left
order; left records with no matching point produce no row. -/
def sjoin {α : Type u} {π : Type w} (ptIn : α → π → Bool)
    (left : List (Rec α)) (right : List (π × List (String × String))) :
    List (Rec α × List (String × String)) :=
  left.flatMap (fun r =>
    (right.filter (fun c => ptIn r.geom c.1)).map (fun c => (r, c.2)))

/-- The point-reduced reference collection built inside `join_rgi`
(geometry.py lines 190-195): the reference records whose geometry intersects
the envelope of the dissolved union of `self`, each replaced by its
representative point, attributes kept. -/
def rgiCenters {α : Type u} {β : Type v} {π : Type w} (gops : GeomOps α)
    (jops : JoinOps α β π) (selfRecs : List (Rec α)) (rgiRecs : List (Rec β)) :
    List (π × List (String × String)) :=
  let env := jops.envelope (gops.unionAll (selfRecs.map (fun r => r.geom)))
  (rgiRecs.filter (fun r => jops.intersectsG r.geom env)).map
    (fun r => (jops.repPoint r.geom, r.attrs))

/-- Embedding of `GlacierOutlines.join_rgi` (geometry.py lines 173-201), with
the reference collection already loaded (the `rgi_loader` / file-reading step
is the Region Resolver, embedded separately):

```python
envelope = self.union_all().envelope.ds.loc[0, 'geometry']
reduced = rgi_outlines[rgi_outlines.ds.to_crs(self.crs).intersects(envelope)].copy().ds
reduced['geometry'] = reduced.to_crs(self.estimate_utm_crs()).representative_point().to_crs(self.crs)
rgi_centers = gu.Vector(reduced)
return self.sjoin(rgi_centers)
```

The `inplace=True` branch stores the same rows into `self.ds`; either way the
joined rows are `sjoin` of `self` against the point-reduced reference. -/
def joinRgi {α : Type u} {β : Type v} {π : Type w} (gops : GeomOps α)
    (jops : JoinOps α β π) (selfRecs : List (Rec α)) (rgiRecs : List (Rec β)) :
    List (Rec α × List (String × String)) :=
  sjoin jops.ptIn selfRecs (rgiCenters gops jops selfRecs rgiRecs)

/-- Python argument `rgi_reg : Union[int, str]` of `rgi_loader`. -/
inductive RegArg where
  | int : Int → RegArg
  | str : String → RegArg
deriving Repr, DecidableEq

/-- Python list indexing `l[k]`: non-negative indices from the front,
negative indices from the back, `IndexError` when out of range. -/
def pyGetItem {β : Type u} (l : List β) (k : Int) : Except String β :=
  if 0 ≤ k then
    match l.get? k.toNat with
    | some x => Except.ok x
    | none => Except.error ("IndexError: list index out of range")
  else
    let j : Int := (l.length : Int) + k
    if 0 ≤ j then
      match l.get? j.toNat with
      | some x => Except.ok x
      | none => Except.error ("IndexError: list index out of range")
    else Except.error ("IndexError: list index out of range")

/-- The `rgi_regions['v7.0']` list (utils.py lines 5-24). -/
def rgiRegionsV7 : List String :=
  [("RGI2000-v7.0-G-01_alaska"),
   ("RGI2000-v7.0-G-02_western_canada_usa"),
   ("RGI2000-v7.0-G-03_arctic_canada_north"),
   ("RGI2000-v7.0-G-04_arctic_canada_south"),
   ("RGI2000-v7.0-G-05_greenland_periphery"),
   ("RGI2000-v7.0-G-06_iceland"),
   ("RGI2000-v7.0-G-07_svalbard_jan_mayen"),
   ("RGI2000-v7.0-G-08_scandinavia"),
   ("RGI2000-v7.0-G-09_russian_arctic"),
   ("RGI2000-v7.0-G-10_north_asia"),
   ("RGI2000-v7.0-G-11_central_europe"),
   ("RGI2000-v7.0-G-12_caucasus_middle_east"),
   ("RGI2000-v7.0-G-13_central_asia"),
   ("RGI2000-v7.0-G-14_south_asia_west"),
   ("RGI2000-v7.0-G-15_south_asia_east"),
   ("RGI2000-v7.0-G-16_low_latitudes"),
   ("RGI2000-v7.0-G-17_southern_andes"),
   ("RGI2000-v7.0-G-18_new_zealand"),
   ("RGI2000-v7.0-G-19_subantarctic_antarctic_islands")]

/-- The `rgi_regions['v6.0']` list (utils.py lines 25-45). -/
def rgiRegionsV6 : List String :=
  [("01_rgi60_Alaska"),
   ("02_rgi60_WesternCanadaUS"),
   ("03_rgi60_ArcticCanadaNorth"),
   ("04_rgi60_ArcticCanadaSouth"),
   ("05_rgi60_GreenlandPeriphery"),
   ("06_rgi60_Iceland"),
   ("07_rgi60_Svalbard"),
   ("08_rgi60_Scandinavia"),
   ("09_rgi60_RussianArctic"),
   ("10_rgi60_NorthAsia"),
   ("11_rgi60_CentralEurope"),
   ("12_rgi60_CaucasusMiddleEast"),
   ("13_rgi60_CentralAsia"),
   ("14_rgi60_SouthAsiaWest"),
   ("15_rgi60_SouthAsiaEast"),
   ("16_rgi60_LowLatitudes"),
   ("17_rgi60_SouthernAndes"),
   ("18_rgi60_NewZealand"),
   ("19_rgi60_AntarcticSubantarctic")]

/-- The `rgi_regions` dict lookup `rgi_regions[version]`: `KeyError` for any
other version tag. -/
def rgiRegions (version : String) : Except String (List String) :=
  if version == ("v7.0") then Except.ok rgiRegionsV7
  else if version == ("v6.0") then Except.ok rgiRegionsV6
  else Except.error ("KeyError")

/-- Embedding of `rgi_loader` (utils.py lines 47-66).  The filesystem is the
external collaborator `exists`, a predicate on paths; a path is the list of
`Path(...)` components.

```python
if isinstance(rgi_reg, int):
    rgi_reg = rgi_regions[version][rgi_reg-1]
if Path(rgi_dir, rgi_reg + '.shp').exists():
    return Path(rgi_dir, rgi_reg + '.shp')
elif Path(rgi_dir, rgi_reg, rgi_reg + '.shp').exists():
    return Path(rgi_dir, rgi_reg, rgi_reg + '.shp')
else:
    raise FileNotFoundError(f"Unable to find {rgi_reg}.shp in {rgi_dir}, ...")
``` -/
def rgiLoader (fsExists : List String → Bool) (rgi_dir : String)
    (rgi_reg : RegArg) (version : String) : Except String (List String) := do
  let name ←
    match rgi_reg with
    | RegArg.int i => do
        let lst ← rgiRegions version
        pyGetItem lst (i - 1)
    | RegArg.str s => pure s
  if fsExists [rgi_dir, name ++ (".shp")] then
    pure [rgi_dir, name ++ (".shp")]
  else if fsExists [rgi_dir, name, name ++ (".shp")] then
    pure [rgi_dir, name, name ++ (".shp")]
  else
    Except.error ("Unable to find " ++ name ++ (".shp in ") ++ rgi_dir ++
      (", or a sub-directory. Please check path and filename."))

/-- Concrete instantiation of the geometry collaborator over `Nat` geometries,
used to evaluate the embedding on concrete inputs: a geometry `g ≥ 10` is
"multi-part" (two pieces), everything overlaps everything, cleaning adds 100. -/
def natGeomOps : GeomOps Nat where
  ovl := fun _ _ => true
  inter := fun a b => a + b
  isValid := fun _ => true
  reason := fun _ => ("ok")
  explode := fun g => if 10 ≤ g then [g, g] else [g]
  clean := fun g => g + 100
  unionAll := fun l => l.foldr (fun a b => a + b) 0
  diff := fun a b => a - b

/-- Concrete geometry collaborator for the difference examples: union is the
sum, difference is truncated subtraction, and decomposing the empty geometry
(`0`) yields no pieces — as shapely/geopandas explode does. -/
def diffNatOps : GeomOps Nat where
  ovl := fun _ _ => false
  inter := fun a b => a + b
  isValid := fun _ => true
  reason := fun _ => ("ok")
  explode := fun g => if g == 0 then [] else [g]
  clean := fun g => g
  unionAll := fun l => l.foldr (fun a b => a + b) 0
  diff := fun a b => a - b

/-- Concrete instantiation of the join collaborator: geometries and points are
`Nat`, a point lies in a geometry exactly when they are equal. -/
def natJoinOps : JoinOps Nat Nat Nat where
  envelope := fun a => a
  intersectsG := fun _ _ => true
  repPoint := fun b => b
  ptIn := fun g p => g == p

/-- Rendering of a `Path` as a string, for asking whether an error message
names a path. -/
def pathToString (p : List String) : String :=
  String.intercalate ("/") p

/-- Whether the character list `t` is a prefix of `s`. -/
def charsHavePre : List Char → List Char → Bool
  | [], _ => true
  | _ :: _, [] => false
  | a :: as, b :: bs => a == b && charsHavePre as bs

/-- Whether the character list `t` occurs inside `s` (at any position). -/
def charsOccur (t : List Char) : List Char → Bool
  | [] => t.isEmpty
  | b :: bs => charsHavePre t (b :: bs) || charsOccur t bs

/-- Whether `t` occurs in `s` as a substring. -/
def containsStr (s t : String) : Bool :=
  charsOccur t.data s.data

section Lemmas

variable {α : Type u} {β : Type v} {γ : Type w}

theorem enumNat_length (n : Nat) (l : List β) : (enumNat n l).length = l.length := by
  induction l generalizing n with
  | nil => rfl
  | cons x xs ih => simp [enumNat, ih]

theorem enumNat_map_snd (n : Nat) (l : List β) (f : β → γ) :
    (enumNat n l).map (fun p => f p.2) = l.map f := by
  induction l generalizing n with
  | nil => rfl
  | cons x xs ih => simp [enumNat, ih]

theorem enumNat_map_fst (n : Nat) (l : List β) :
    (enumNat n l).map (fun p => p.1) = List.range' n l.length := by
  induction l generalizing n with
  | nil => rfl
  | cons x xs ih => simp [enumNat, ih, List.range'_succ]

theorem enumNat_map_attrs {δ : Type u} (n : Nat) (l : List (δ × String)) :
    (enumNat n l).map (fun p => [(("difference"), p.2.2)])
      = l.map (fun q => [(("difference"), q.2)]) := by
  induction l generalizing n with
  | nil => rfl
  | cons x xs ih => simp [enumNat, ih]

end Lemmas

/-- C1 (code bug): the claim says the internal pair finder compares each record
against every record strictly after it in the ordered sequence and returns
exactly the overlapping pairs.  The code slices with `self.ds.loc[n + 1:]`
where `n` is the 1-started enumeration counter, a label-based slice, so with
the default 0-based index the record at position `i` is compared against the
records with label `≥ i + 2`: every adjacent pair `(i, i + 1)` is skipped.  At
the failing input — two records with labels 0 and 1 whose geometries overlap —
the code returns no pair, while the upper-triangle enumeration written in the
spec returns the pair `(0, 1)`. -/
theorem overlappingInds_misses_adjacent_pair :
    overlappingInds (fun (_ _ : Nat) => true) [⟨0, 1, []⟩, ⟨1, 2, []⟩] = [] ∧
      specOverlappingInds (fun (_ _ : Nat) => true) [⟨0, 1, []⟩, ⟨1, 2, []⟩] = [(0, 1)] :=
  ⟨rfl, rfl⟩

/-- C2 (code bug): the claim says that on a collection with zero or one record
the internal pair finder yields no pairs (true) and that `get_overlaps` returns
an empty result and does not fail on a collection with no overlapping pairs
(false).  When `pairs` is empty the statement `left, right = zip(*pairs)`
unpacks an empty `zip()` and raises `ValueError`, so `get_overlaps` fails on
every collection without overlapping pairs — here evaluated on the empty
collection and on a single-record collection. -/
theorem getOverlaps_raises_on_no_pairs :
    overlappingInds natGeomOps.ovl ([] : List (Rec Nat)) = [] ∧
      overlappingInds natGeomOps.ovl [(⟨0, 1, []⟩ : Rec Nat)] = [] ∧
      getOverlaps natGeomOps ([] : List (Rec Nat))
        = Except.error ("ValueError: not enough values to unpack (expected 2, got 0)") ∧
      getOverlaps natGeomOps [(⟨0, 1, []⟩ : Rec Nat)]
        = Except.error ("ValueError: not enough values to unpack (expected 2, got 0)") :=
  ⟨rfl, rfl, rfl, rfl⟩

/-- C10 (confirmed): for both version tags in the region table, calling the
Region Resolver with the integer region identifier 0 does not fail the table
lookup: `rgi_regions[version][0 - 1]` is Python index `-1`, the last (19th)
canonical region name, and path resolution then proceeds exactly as if that
name — equivalently, region 19 — had been requested. -/
theorem rgiLoader_int_zero_resolves_last :
    ∀ (fsExists : List String → Bool) (dir : String),
      rgiLoader fsExists dir (RegArg.int 0) ("v7.0")
          = rgiLoader fsExists dir
              (RegArg.str ("RGI2000-v7.0-G-19_subantarctic_antarctic_islands")) ("v7.0")
        ∧ rgiLoader fsExists dir (RegArg.int 0) ("v7.0")
            = rgiLoader fsExists dir (RegArg.int 19) ("v7.0")
        ∧ rgiLoader fsExists dir (RegArg.int 0) ("v6.0")
            = rgiLoader fsExists dir (RegArg.str ("19_rgi60_AntarcticSubantarctic")) ("v6.0")
        ∧ rgiLoader fsExists dir (RegArg.int 0) ("v6.0")
            = rgiLoader fsExists dir (RegArg.int 19) ("v6.0") := by
  intro fsExists dir
  exact ⟨rfl, rfl, rfl, rfl⟩

/-- C9 (counterexample): with neither layout present, the raised message is the
fixed sentence naming the region file name and the directory — it does not
contain either attempted path (`rgi/REG.shp` or `rgi/REG/REG.shp`), contrary
to the claim that it names both attempted paths. -/
theorem rgiLoader_message_lacks_attempted_paths :
    rgiLoader (fun _ => false) ("rgi") (RegArg.str ("REG")) ("v7.0")
        = Except.error
            ("Unable to find REG.shp in rgi, or a sub-directory. Please check path and filename.")
      ∧ containsStr
            ("Unable to find REG.shp in rgi, or a sub-directory. Please check path and filename.")
            (pathToString [("rgi"), ("REG.shp")]) = false
      ∧ containsStr
            ("Unable to find REG.shp in rgi, or a sub-directory. Please check path and filename.")
            (pathToString [("rgi"), ("REG"), ("REG.shp")]) = false := by
  refine ⟨rfl, ?_, ?_⟩ <;> decide

/-- C9 (amended): the Region Resolver tries the flat layout
`directory/<name>.shp` first, then the subdirectory layout
`directory/<name>/<name>.shp`, and raises a "not found" error exactly when
neither exists; the error message is the fixed sentence naming the resolved
region file name (`<name>.shp`) and the directory and mentioning that a
sub-directory was also checked — it does not spell out the two attempted
paths. -/
theorem rgiLoader_tries_flat_then_subdir :
    ∀ (fsExists : List String → Bool) (dir name ver : String),
      (fsExists [dir, name ++ (".shp")] = true →
          rgiLoader fsExists dir (RegArg.str name) ver = Except.ok [dir, name ++ (".shp")])
        ∧ (fsExists [dir, name ++ (".shp")] = false →
            fsExists [dir, name, name ++ (".shp")] = true →
            rgiLoader fsExists dir (RegArg.str name) ver
              = Except.ok [dir, name, name ++ (".shp")])
        ∧ (fsExists [dir, name ++ (".shp")] = false →
            fsExists [dir, name, name ++ (".shp")] = false →
            rgiLoader fsExists dir (RegArg.str name) ver
              = Except.error ("Unable to find " ++ name ++ (".shp in ") ++ dir ++
                  (", or a sub-directory. Please check path and filename."))) := by
  intro fsExists dir name ver
  refine ⟨fun h1 => ?_, fun h1 h2 => ?_, fun h1 h2 => ?_⟩
  · simp [rgiLoader, h1, bind, Except.bind, pure, Except.pure]
  · simp [rgiLoader, h1, h2, bind, Except.bind, pure, Except.pure]
  · simp [rgiLoader, h1, h2, bind, Except.bind, pure, Except.pure]

/-- Witness for `rgiLoader_tries_flat_then_subdir`: a filesystem holding only
the subdirectory layout for region name `N` sends the resolver to
`rgi/N/N.shp`. -/
theorem rgiLoader_tries_flat_then_subdir_witness :
    rgiLoader (fun p => decide (p = [("rgi"), ("N"), ("N.shp")])) ("rgi")
        (RegArg.str ("N")) ("v7.0")
      = Except.ok [("rgi"), ("N"), ("N") ++ (".shp")] :=
  (rgiLoader_tries_flat_then_subdir (fun p => decide (p = [("rgi"), ("N"), ("N.shp")]))
      ("rgi") ("N") ("v7.0")).2.1 (by decide) (by decide)

theorem sjoin_filter_not_mem {α : Type u} {π : Type w} [DecidableEq α]
    (ptIn : α → π → Bool) (r : Rec α) (centers : List (π × List (String × String))) :
    ∀ left : List (Rec α), r ∉ left →
      (sjoin ptIn left centers).filter (fun q => decide (q.1 = r)) = [] := by
  intro left
  induction left with
  | nil => intro _; rfl
  | cons s t ih =>
    intro h
    have hs : ¬ (s = r) := fun e => h (e ▸ List.mem_cons_self s t)
    have ht : r ∉ t := fun m => h (List.mem_cons_of_mem s m)
    simp [sjoin, List.filter_append, List.filter_map, Function.comp, hs] at ih ⊢
    exact ih ht

theorem sjoin_filter_count_one {α : Type u} {π : Type w} [DecidableEq α]
    (ptIn : α → π → Bool) (r : Rec α) (centers : List (π × List (String × String))) :
    ∀ left : List (Rec α), left.count r = 1 →
      (sjoin ptIn left centers).filter (fun q => decide (q.1 = r))
        = (centers.filter (fun c => ptIn r.geom c.1)).map (fun c => (r, c.2)) := by
  intro left
  induction left with
  | nil => intro h; simp at h
  | cons s t ih =>
    intro h
    by_cases hs : s = r
    · subst hs
      have ht : s ∉ t := by
        rw [List.count_cons_self] at h
        exact List.count_eq_zero.mp (by omega)
      have hz := sjoin_filter_not_mem ptIn s centers t ht
      simp [sjoin, List.filter_append, List.filter_map, Function.comp] at hz ⊢
      exact hz
    · have hrs : r ≠ s := fun e => hs e.symm
      have ht : t.count r = 1 := by
        rw [List.count_cons_of_ne hrs] at h
        exact h
      simpa [sjoin, List.filter_append, List.filter_map, Function.comp, hs] using ih ht

/-- C3 (counterexample): a `self` record containing zero reference
representative points yields no output row at all — the spatial join is the
geopandas default inner join, so unmatched records are dropped rather than
kept with null reference attributes.  Here `self` has one record (geometry 5)
and the only reference point is 7, which does not fall inside it: the join
output is empty, so the record of `self` does not appear in the output. -/
theorem joinRgi_drops_unmatched_record :
    joinRgi natGeomOps natJoinOps [(⟨0, 5, []⟩ : Rec Nat)]
        [(⟨0, 7, [(("rgi_id"), ("x"))]⟩ : Rec Nat)] = []
      ∧ [(⟨0, 5, []⟩ : Rec Nat)].length = 1 :=
  ⟨rfl, rfl⟩

/-- C3 (amended): `join_rgi` has inner-join semantics: for a `self` record
occurring once in the collection, the output rows carrying that record are
exactly one row per envelope-surviving reference record whose representative
point falls within it, each row attaching that reference record's attributes —
so exactly one containing reference point attaches that record's attributes,
`k` points fan out to `k` rows, and a record containing zero reference points
is dropped from the output (no null-attribute row is produced). -/
theorem joinRgi_inner_join_per_record {α : Type u} {β : Type v} {π : Type w}
    [DecidableEq α] :
    ∀ (gops : GeomOps α) (jops : JoinOps α β π) (selfRecs : List (Rec α))
      (rgiRecs : List (Rec β)) (r : Rec α),
      selfRecs.count r = 1 →
      (joinRgi gops jops selfRecs rgiRecs).filter (fun q => decide (q.1 = r))
        = ((rgiCenters gops jops selfRecs rgiRecs).filter
            (fun c => jops.ptIn r.geom c.1)).map (fun c => (r, c.2)) := by
  intro gops jops selfRecs rgiRecs r h
  exact sjoin_filter_count_one jops.ptIn r (rgiCenters gops jops selfRecs rgiRecs) selfRecs h

/-- Witness for `joinRgi_inner_join_per_record`: a single `self` record
(geometry 5) whose geometry contains the one reference representative
point 5. -/
theorem joinRgi_inner_join_per_record_witness :
    (joinRgi natGeomOps natJoinOps [(⟨0, 5, []⟩ : Rec Nat)]
        [(⟨1, 5, [(("rgi_id"), ("a"))]⟩ : Rec Nat)]).filter
        (fun q => decide (q.1 = (⟨0, 5, []⟩ : Rec Nat)))
      = ((rgiCenters natGeomOps natJoinOps [(⟨0, 5, []⟩ : Rec Nat)]
            [(⟨1, 5, [(("rgi_id"), ("a"))]⟩ : Rec Nat)]).filter
          (fun c => natJoinOps.ptIn ((⟨0, 5, []⟩ : Rec Nat)).geom c.1)).map
          (fun c => ((⟨0, 5, []⟩ : Rec Nat), c.2)) :=
  joinRgi_inner_join_per_record natGeomOps natJoinOps _ _ _ (by decide)

/-- C6 (confirmed): `compute_difference` returns a new collection whose rows
are the single-part pieces of `self − other` labelled `added` followed by the
pieces of `other − self` labelled `removed`, with identifiers reset to the
fresh contiguous zero-based range `0, 1, ...`, and the final states of `self`
and `other` are their input states (no mutation). -/
theorem computeDifference_output_shape {α : Type u} :
    ∀ (ops : GeomOps α) (selfRecs otherRecs : List (Rec α)),
      (computeDifferenceCall ops selfRecs otherRecs).1 = selfRecs
        ∧ (computeDifferenceCall ops selfRecs otherRecs).2.1 = otherRecs
        ∧ (computeDifference ops selfRecs otherRecs).map (fun r => r.geom)
            = ops.explode (ops.diff (ops.unionAll (selfRecs.map (fun r => r.geom)))
                (ops.unionAll (otherRecs.map (fun r => r.geom))))
              ++ ops.explode (ops.diff (ops.unionAll (otherRecs.map (fun r => r.geom)))
                (ops.unionAll (selfRecs.map (fun r => r.geom))))
        ∧ (computeDifference ops selfRecs otherRecs).map (fun r => r.attrs)
            = List.replicate (ops.explode (ops.diff
                  (ops.unionAll (selfRecs.map (fun r => r.geom)))
                  (ops.unionAll (otherRecs.map (fun r => r.geom))))).length
                [(("difference"), ("added"))]
              ++ List.replicate (ops.explode (ops.diff
                  (ops.unionAll (otherRecs.map (fun r => r.geom)))
                  (ops.unionAll (selfRecs.map (fun r => r.geom))))).length
                [(("difference"), ("removed"))]
        ∧ (computeDifference ops selfRecs otherRecs).map (fun r => r.label)
            = List.range ((computeDifference ops selfRecs otherRecs).length) := by
  intro ops selfRecs otherRecs
  refine ⟨rfl, rfl, ?_, ?_, ?_⟩
  · simp [computeDifference, List.map_map, Function.comp_def, enumNat_map_snd]
  · simp [computeDifference, List.map_map, Function.comp_def, enumNat_map_attrs,
      List.map_const']
  · simp [computeDifference, List.map_map, Function.comp_def, enumNat_map_fst,
      enumNat_length, List.range_eq_range']

theorem enumNat_mk_filter_tag {α : Type u} (tag : String) :
    ∀ (n : Nat) (l : List (α × String)),
      ((((enumNat n l).map (fun p =>
            ({ label := p.1, geom := p.2.1,
               attrs := [(("difference"), p.2.2)] } : Rec α))).filter
          (fun r => decide (r.attrs = [(("difference"), tag)]))).map (fun r => r.geom))
        = (l.filter (fun q => decide (q.2 = tag))).map (fun q => q.1) := by
  intro n l
  induction l generalizing n with
  | nil => rfl
  | cons x xs ih =>
    by_cases hx : x.2 = tag
    · simp [enumNat, List.filter_cons, hx, ih]
    · simp [enumNat, List.filter_cons, hx, ih]

theorem addedGeoms_eq {α : Type u} (ops : GeomOps α) (selfRecs otherRecs : List (Rec α)) :
    addedGeoms ops selfRecs otherRecs
      = ops.explode (ops.diff (ops.unionAll (selfRecs.map (fun r => r.geom)))
          (ops.unionAll (otherRecs.map (fun r => r.geom)))) := by
  unfold addedGeoms computeDifference
  rw [enumNat_mk_filter_tag]
  simp [List.filter_append, List.filter_map, Function.comp_def, List.map_map]

theorem removedGeoms_eq {α : Type u} (ops : GeomOps α) (selfRecs otherRecs : List (Rec α)) :
    removedGeoms ops selfRecs otherRecs
      = ops.explode (ops.diff (ops.unionAll (otherRecs.map (fun r => r.geom)))
          (ops.unionAll (selfRecs.map (fun r => r.geom)))) := by
  unfold removedGeoms computeDifference
  rw [enumNat_mk_filter_tag]
  simp [List.filter_append, List.filter_map, Function.comp_def, List.map_map]

/-- C7 (confirmed): `compute_difference` is antisymmetric — the geometries
labelled `added` by `compute_difference(A, B)` are exactly those labelled
`removed` by `compute_difference(B, A)` and vice versa (both sides are
`explode(union(A) − union(B))` resp. `explode(union(B) − union(A))`); and
whenever the geometry collaborator decomposes the self-difference of a
geometry into no pieces (as shapely does: `x − x` is empty),
`compute_difference(A, A)` yields zero `added` and zero `removed` records. -/
theorem computeDifference_antisymm {α : Type u} :
    ∀ (ops : GeomOps α) (selfRecs otherRecs : List (Rec α)),
      addedGeoms ops selfRecs otherRecs = removedGeoms ops otherRecs selfRecs
        ∧ removedGeoms ops selfRecs otherRecs = addedGeoms ops otherRecs selfRecs
        ∧ ((∀ x, ops.explode (ops.diff x x) = []) →
            computeDifference ops selfRecs selfRecs = []) := by
  intro ops selfRecs otherRecs
  refine ⟨?_, ?_, fun h => ?_⟩
  · rw [addedGeoms_eq, removedGeoms_eq]
  · rw [removedGeoms_eq, addedGeoms_eq]
  · simp [computeDifference, h, enumNat]

/-- Witness for `computeDifference_antisymm` at concrete single-record
collections over the `Nat` difference collaborator. -/
theorem computeDifference_antisymm_witness :
    addedGeoms diffNatOps [(⟨0, 3, []⟩ : Rec Nat)] [(⟨0, 5, []⟩ : Rec Nat)]
        = removedGeoms diffNatOps [(⟨0, 5, []⟩ : Rec Nat)] [(⟨0, 3, []⟩ : Rec Nat)]
      ∧ computeDifference diffNatOps [(⟨0, 3, []⟩ : Rec Nat)] [(⟨0, 3, []⟩ : Rec Nat)] = [] :=
  ⟨(computeDifference_antisymm diffNatOps [(⟨0, 3, []⟩ : Rec Nat)] [(⟨0, 5, []⟩ : Rec Nat)]).1,
   (computeDifference_antisymm diffNatOps [(⟨0, 3, []⟩ : Rec Nat)]
      [(⟨0, 3, []⟩ : Rec Nat)]).2.2 (fun x => by simp [diffNatOps, Nat.sub_self])⟩

/-- C8 (confirmed): `validate()` replaces every geometry of the collection by
its vertex-deduplicated cleaning (`remove_repeated_points(tolerance=1e-6)`,
the external `clean` operation) in place, unconditionally — the equation holds
whether the call succeeds or subsequently fails the final assertion — and the
step modifies no field other than the geometry: labels and attributes are
unchanged. -/
theorem validate_cleans_in_place {α : Type u} :
    ∀ (ops : GeomOps α) (overlap_ok multi_ok : Bool) (name : String) (recs : List (Rec α)),
      (validate ops overlap_ok multi_ok name recs).records
          = recs.map (fun r => { r with geom := ops.clean r.geom })
        ∧ (validate ops overlap_ok multi_ok name recs).records.map (fun r => r.label)
            = recs.map (fun r => r.label)
        ∧ (validate ops overlap_ok multi_ok name recs).records.map (fun r => r.attrs)
            = recs.map (fun r => r.attrs) := by
  intro ops overlap_ok multi_ok name recs
  have h : (validate ops overlap_ok multi_ok name recs).records
      = recs.map (fun r => { r with geom := ops.clean r.geom }) := by
    unfold validate
    dsimp only
    rw [apply_ite VResult.records]
    dsimp only
    rw [ite_self]
  refine ⟨h, ?_, ?_⟩ <;> simp [h, List.map_map]

/-- C4 (confirmed): `validate()` raises its validation failure (the final
`assert`, modelled by `ok = false`) exactly when at least one failure flag is
set — overlapping pairs present with `overlap_ok` false, any invalid geometry,
or multi-part records present with `multi_ok` false — and the cleaned
collection is written to the `cleaned/` output location exactly when all flags
are clear. -/
theorem validate_fails_iff_flag_set {α : Type u} :
    ∀ (ops : GeomOps α) (overlap_ok multi_ok : Bool) (name : String) (recs : List (Rec α)),
      (validate ops overlap_ok multi_ok name recs).ok
          = !(overlapFlag ops overlap_ok recs || invalidFlag ops recs
              || multiFlag ops multi_ok recs)
        ∧ (validate ops overlap_ok multi_ok name recs).writes.filter isCleanedWrite
            = (if (overlapFlag ops overlap_ok recs || invalidFlag ops recs
                   || multiFlag ops multi_ok recs) = true
               then []
               else [⟨(("cleaned"), stemOf name ++ (".gpkg")),
                      Table.recTable (recs.map (fun r => { r with geom := ops.clean r.geom }))⟩]) := by
  intro ops overlap_ok multi_ok name recs
  by_cases hp : 0 < (overlappingInds ops.ovl recs).length <;>
    cases hall : recs.all (fun r => ops.isValid r.geom) <;>
    cases overlap_ok <;> cases multi_ok <;>
    by_cases hlen : recs.length
        = (List.map (List.length ∘ fun r => List.map (fun g => (r.label, g)) (ops.explode r.geom)) recs).sum <;>
    simp [validate, overlapFlag, invalidFlag, multiFlag, isCleanedWrite,
      hp, hall, hlen, List.filter_append, List.filter_cons]

/-- C5 (amended): the multi-part offender file is written exactly when the
multi-part failure flag is set — that is, only when the caller has not
permitted multi-part geometries (`multi_ok` false) and the record count
changes under decomposition; it then contains the offending original (not
decomposed) records.  When `multi_ok` is true the check is skipped entirely
and nothing is written for it.  Moreover the multi-part branch never creates
the `errors` output location: `errors` is created exactly when the overlap or
the invalid branch ran. -/
theorem validate_multi_write_only_when_disallowed {α : Type u} :
    ∀ (ops : GeomOps α) (overlap_ok multi_ok : Bool) (name : String) (recs : List (Rec α)),
      (validate ops overlap_ok multi_ok name recs).writes.filter isMultiErrWrite
          = (if multiFlag ops multi_ok recs = true then
              [⟨(("errors"), stemOf name ++ ("_multi.gpkg")),
                Table.recTable (recs.filter (fun r =>
                  (duplicatedLabels ((recs.flatMap (fun t => (ops.explode t.geom).map
                    (fun g => (t.label, g)))).map (fun q => q.1))).contains r.label))⟩]
             else [])
        ∧ (validate ops overlap_ok multi_ok name recs).dirs.contains (("errors"))
            = ((0 < (overlappingInds ops.ovl recs).length : Bool)
               || !(recs.all (fun r => ops.isValid r.geom))) := by
  intro ops overlap_ok multi_ok name recs
  by_cases hp : 0 < (overlappingInds ops.ovl recs).length <;>
    cases hall : recs.all (fun r => ops.isValid r.geom) <;>
    cases overlap_ok <;> cases multi_ok <;>
    by_cases hlen : recs.length
        = (List.map (List.length ∘ fun r => List.map (fun g => (r.label, g)) (ops.explode r.geom)) recs).sum <;>
    simp [validate, multiFlag, isMultiErrWrite,
      hp, hall, hlen, List.filter_append, List.filter_cons]

/-- C5 (counterexample): a collection with one multi-part record (geometry 15
decomposes into two pieces).  With `multi_ok=True` nothing at all is written
for the multi-part check, contradicting the claim that the write happens
whenever multi-part records exist, independent of the `multi_ok` setting; and
with `multi_ok=False` the offender file is written but no output location is
created (`os.makedirs` is never called on this path), contradicting "created
on demand if absent". -/
theorem validate_multi_write_skipped_when_allowed :
    ([(⟨0, 15, []⟩ : Rec Nat)].length
        ≠ ([(⟨0, 15, []⟩ : Rec Nat)].flatMap (fun r =>
            (natGeomOps.explode r.geom).map (fun g => (r.label, g)))).length)
      ∧ (validate natGeomOps false true ("test.shp")
            [(⟨0, 15, []⟩ : Rec Nat)]).writes.filter isMultiErrWrite = []
      ∧ (validate natGeomOps false false ("test.shp")
            [(⟨0, 15, []⟩ : Rec Nat)]).writes.filter isMultiErrWrite
          = [⟨(("errors"), ("test_multi.gpkg")),
              Table.recTable [(⟨0, 15, []⟩ : Rec Nat)]⟩]
      ∧ (validate natGeomOps false false ("test.shp")
            [(⟨0, 15, []⟩ : Rec Nat)]).dirs = [] := by
  refine ⟨?_, ?_, ?_, ?_⟩ <;> decide

end GlacMapTools
